import Mathlib

/-
Verification of the callback-bridge and handle-lifecycle core of
modified_rusty_libimobiledevice, a Rust veneer over the native
libimobiledevice C library.

Shallow embedding of:
  src/callback.rs            — the event callback bridge
  src/services/mobile_sync.rs — the MobileSyncClient service handle

Native calls are modeled by passing the values the native layer would
return or write through output parameters as explicit arguments; raw
pointers that can be null are modeled as Option; a Rust panic (an
`unwrap()` that fails) and an undefined-behavior dereference are modeled
as explicit outcomes of an operation.
-/

namespace RustyLibimobiledevice

/-- Rust-side outcome of calling a wrapper operation: a normal return,
a panic (a failed `unwrap()`), or undefined behavior (dereferencing an
invalid raw pointer). -/
inductive RustOutcome (α : Type) where
  | ok (value : α)
  | panicked
  | ub
deriving DecidableEq, Repr

/-- Typed error enum for the mobile sync service. `Success` and
`InvalidArg` are the variants used by src/services/mobile_sync.rs; the
remaining variants follow the native mobilesync status codes that the
(out-of-excerpt) error.rs translation covers. Modelled from the spec:
every native call returns an integer status translated into a closed
error enum (Success, InvalidArgument, service-specific failure codes). -/
inductive MobileSyncError where
  | Success
  | InvalidArg
  | PlistError
  | MuxError
  | SslError
  | ReceiveTimeout
  | BadVersion
  | SyncRefused
  | Cancelled
  | WrongDirection
  | NotReady
  | UnknownError
deriving DecidableEq, Repr

/-- True when the string contains an interior NUL byte. A Rust `String`
is valid UTF-8, so a NUL byte occurs in its byte representation exactly
when the scalar value U+0000 occurs among its characters. -/
def hasInteriorNul (s : String) : Bool :=
  s.data.any fun c => c.toNat == 0

/-- Model of `CString::new`: succeeds with the same character content
when the string has no interior NUL byte, fails otherwise. Every call
site in src unwraps the result, turning the failure into a panic. -/
def cStringNew (s : String) : Option String :=
  if hasInteriorNul s then none else some s

/- ===================== Event callback bridge (src/callback.rs) ===================== -/

/-- The native `idevice_event_t` record: device identifier and event
kind. Modelled from the spec: an Event is decoded from the native
record and carries a device identifier and an event kind. -/
structure RawIDeviceEvent where
  udid : String
  event : Nat
deriving DecidableEq, Repr

/-- The decoded `IDeviceEvent` value handed to user code. -/
structure IDeviceEvent where
  udid : String
  event : Nat
deriving DecidableEq, Repr

/-- Modelled from the spec: decoding the native record into an Event at
invocation time (the `From<idevice_event_t> for IDeviceEvent` impl
lives in idevice.rs, outside the excerpt); it carries over the device
identifier and the event kind. -/
def decodeEvent (raw : RawIDeviceEvent) : IDeviceEvent :=
  { udid := raw.udid, event := raw.event }

/-- The `IDeviceEventCallback` registration from src/callback.rs. The
`_function_pointer` closure and `_data` context are abstracted: the
bridge's observable behavior is whether (and with which event) the
closure is invoked, captured by `CallbackOutcome`. Only the
`_udid_filter` field takes part in the forwarding decision. -/
structure IDeviceEventCallback where
  udid_filter : Option String
deriving DecidableEq, Repr

/-- Observable outcome of one invocation of the callback bridge:
the handler closure was invoked with a decoded event (`callback.call(event)`),
the event was silently dropped by the udid filter, or the entry point
performed an undefined-behavior dereference of an invalid pointer. -/
inductive CallbackOutcome where
  | ub
  | droppedByFilter
  | forwarded (e : IDeviceEvent)
deriving DecidableEq, Repr

/-- The extern "C" entry point `idevice_event_callback` from
src/callback.rs lines 35-52. The raw event pointer is modeled as
`Option RawIDeviceEvent` (`none` = null). The source dereferences
`(*event)` unconditionally on its first line, before any check, so the
null case is an undefined-behavior dereference. Otherwise the event is
decoded, the optional udid filter is applied (a mismatch returns
without calling the closure), and the stored closure is called with
the decoded event. -/
def idevice_event_callback (event : Option RawIDeviceEvent)
    (callback : IDeviceEventCallback) : CallbackOutcome :=
  match event with
  | none => CallbackOutcome.ub
  | some raw =>
    let e := decodeEvent raw
    match callback.udid_filter with
    | some filter_udid =>
      if e.udid ≠ filter_udid then CallbackOutcome.droppedByFilter
      else CallbackOutcome.forwarded e
    | none => CallbackOutcome.forwarded e

/- ============== Service client handle (src/services/mobile_sync.rs) ============== -/

/-- The `MobileSyncClient` struct: wraps the native session pointer
(`mobilesync_client_t`, modeled as a `Nat` identifier). The source
struct derives `Clone`, so a clone duplicates the raw pointer. -/
structure MobileSyncClient where
  pointer : Nat
deriving DecidableEq, Repr

/-- Subset of plist_plus `PlistType` values relevant here (the wrapper
only inspects whether a payload is `Array`). -/
inductive PlistType where
  | Array
  | Dictionary
  | Boolean
  | Integer
  | Real
  | String
  | Data
  | Date
  | Key
deriving DecidableEq, Repr

/-- A plist payload handle: its runtime type tag and the opaque native
pointer. The wrapper treats the payload as opaque apart from
`plist_type`. -/
structure Plist where
  plist_type : PlistType
  pointer : Nat
deriving DecidableEq, Repr

/-- `MobileSyncClient::new` (lines 37-52): the native
`mobilesync_client_new` call is modeled by its translated status
`nativeResult` and the pointer `nativePointer` it writes on success.
On any non-Success status the error is returned before a client value
exists; otherwise the client owning the pointer is returned. -/
def MobileSyncClient.new (nativeResult : MobileSyncError) (nativePointer : Nat) :
    Except MobileSyncError MobileSyncClient :=
  if nativeResult ≠ MobileSyncError.Success then Except.error nativeResult
  else Except.ok { pointer := nativePointer }

/-- `MobileSyncClient::start_service` (lines 62-85): first
`CString::new(label).unwrap()` — a panic when the label has an interior
NUL byte — then the native `mobilesync_client_start_service` call,
modeled by its translated status and the written pointer. -/
def MobileSyncClient.start_service (label : String)
    (nativeResult : MobileSyncError) (nativePointer : Nat) :
    RustOutcome (Except MobileSyncError MobileSyncClient) :=
  match cStringNew label with
  | none => RustOutcome.panicked
  | some _ =>
    if nativeResult ≠ MobileSyncError.Success then
      RustOutcome.ok (Except.error nativeResult)
    else RustOutcome.ok (Except.ok { pointer := nativePointer })

/-- `MobileSyncClient::cancel` (lines 184-196):
`CString::new(reason).unwrap()` then the native `mobilesync_cancel`
call, whose translated status is propagated. -/
def MobileSyncClient.cancel (_client : MobileSyncClient) (reason : String)
    (nativeResult : MobileSyncError) : RustOutcome (Except MobileSyncError Unit) :=
  match cStringNew reason with
  | none => RustOutcome.panicked
  | some _ =>
    if nativeResult ≠ MobileSyncError.Success then
      RustOutcome.ok (Except.error nativeResult)
    else RustOutcome.ok (Except.ok ())

/-- The `MobileSyncType` enum (lines 423-428). -/
inductive MobileSyncType where
  | Fast
  | Slow
  | Reset
deriving DecidableEq, Repr

/-- The `From<MobileSyncType> for c_uint` conversion (lines 430-438). -/
def MobileSyncType.toCUInt : MobileSyncType → Nat
  | MobileSyncType.Fast => 0
  | MobileSyncType.Slow => 1
  | MobileSyncType.Reset => 2

/-- A `MobileSyncAnchor` (lines 22-26): the two `CString` fields as
stored after a successful `CString::new` (the `c_struct` of raw
pointers aims at these same strings and is not separately modeled). -/
structure MobileSyncAnchor where
  deviceAnchorCString : String
  computerAnchorCString : String
deriving DecidableEq, Repr

/-- `MobileSyncAnchor::new` (lines 396-408): converts both strings with
`CString::new(...).unwrap()` — a panic when either has an interior NUL
byte — and stores the resulting C strings. -/
def MobileSyncAnchor.new (device_anchor computer_anchor : String) :
    RustOutcome MobileSyncAnchor :=
  match cStringNew device_anchor, cStringNew computer_anchor with
  | some d, some c =>
    RustOutcome.ok { deviceAnchorCString := d, computerAnchorCString := c }
  | _, _ => RustOutcome.panicked

/-- The `device_anchor()` accessor (lines 414-416):
`as_c_str().to_str().unwrap()`, the identity on the stored content
(which is valid UTF-8, having come from a Rust `String`). -/
def MobileSyncAnchor.device_anchor (a : MobileSyncAnchor) : String :=
  a.deviceAnchorCString

/-- The `computer_anchor()` accessor (lines 418-420). -/
def MobileSyncAnchor.computer_anchor (a : MobileSyncAnchor) : String :=
  a.computerAnchorCString

/-- The argument vector built by `start` (lines 144-146): the anchors'
`c_struct` pointers followed by a null terminator, of which element 0
is handed to the native call. A pointer is modeled as
`Option MobileSyncAnchor` with `none` for null. -/
def startAnchorArg (anchors : List MobileSyncAnchor) : Option MobileSyncAnchor :=
  ((anchors.map some) ++ [none]).getD 0 none

/-- The argument record of one native `mobilesync_start` call
(lines 152-162): the session pointer, the data-class C string, the
single anchors pointer `anchor_ptrs[0]`, the host class version, and
the numeric sync type. -/
structure MobilesyncStartCall where
  pointer : Nat
  data_class : String
  anchors : Option MobileSyncAnchor
  computer_data_class_version : Nat
  sync_type : Nat
deriving DecidableEq, Repr

/-- The native call record that `start` assembles from its arguments. -/
def startCall (client : MobileSyncClient) (data_class : String)
    (anchors : List MobileSyncAnchor) (computer_data_class_version : Nat)
    (sync_type : MobileSyncType) : MobilesyncStartCall :=
  { pointer := client.pointer
    data_class := data_class
    anchors := startAnchorArg anchors
    computer_data_class_version := computer_data_class_version
    sync_type := sync_type.toCUInt }

/-- `MobileSyncClient::start` (lines 135-175):
`CString::new(data_class).unwrap()` (panic on interior NUL), then the
native `mobilesync_start` call receiving `anchor_ptrs[0]`. The native
behavior is modeled by its translated status `nativeResult` and the
`error_description` C string it writes (`none` = left null). On
failure the source runs `CStr::from_ptr(error_description)` — an
undefined-behavior dereference when it is null — and returns the
description string paired with the typed code; on success it returns
unit. The returned value carries the assembled native call record. -/
def MobileSyncClient.start (client : MobileSyncClient) (data_class : String)
    (anchors : List MobileSyncAnchor) (computer_data_class_version : Nat)
    (sync_type : MobileSyncType) (nativeResult : MobileSyncError)
    (errorDescription : Option String) :
    RustOutcome (MobilesyncStartCall × Except (String × MobileSyncError) Unit) :=
  match cStringNew data_class with
  | none => RustOutcome.panicked
  | some _ =>
    let call := startCall client data_class anchors computer_data_class_version sync_type
    if nativeResult ≠ MobileSyncError.Success then
      match errorDescription with
      | none => RustOutcome.ub
      | some d => RustOutcome.ok (call, Except.error (d, nativeResult))
    else RustOutcome.ok (call, Except.ok ())

/-- `MobileSyncClient::receive_changes` (lines 275-295): the native
`mobilesync_receive_changes` call writes a data plist, an integer
`has_more_changes` flag (a C int, modeled as `Int`), and an anchor
plist. On non-Success the error is propagated; on success the triple
is returned with the flag normalized by the nonzero test
`has_more_changes != 0`. -/
def MobileSyncClient.receive_changes (_client : MobileSyncClient)
    (nativeResult : MobileSyncError) (plist : Plist) (has_more_changes : Int)
    (anchor : Plist) : Except MobileSyncError (Plist × Bool × Plist) :=
  if nativeResult ≠ MobileSyncError.Success then Except.error nativeResult
  else Except.ok (plist, has_more_changes != 0, anchor)

/-- `MobileSyncClient::get_all_records_from_device` (lines 222-231):
the native `mobilesync_get_all_records_from_device` status is checked
first, then the result of `receive_changes` is returned. -/
def MobileSyncClient.get_all_records_from_device (client : MobileSyncClient)
    (nativeGetResult : MobileSyncError) (recvResult : MobileSyncError)
    (plist : Plist) (has_more_changes : Int) (anchor : Plist) :
    Except MobileSyncError (Plist × Bool × Plist) :=
  if nativeGetResult ≠ MobileSyncError.Success then Except.error nativeGetResult
  else client.receive_changes recvResult plist has_more_changes anchor

/-- `MobileSyncClient::get_changes_from_device` (lines 240-249):
the native `mobilesync_get_changes_from_device` status is checked
first, then the result of `receive_changes` is returned. -/
def MobileSyncClient.get_changes_from_device (client : MobileSyncClient)
    (nativeGetResult : MobileSyncError) (recvResult : MobileSyncError)
    (plist : Plist) (has_more_changes : Int) (anchor : Plist) :
    Except MobileSyncError (Plist × Bool × Plist) :=
  if nativeGetResult ≠ MobileSyncError.Success then Except.error nativeGetResult
  else client.receive_changes recvResult plist has_more_changes anchor

/-- `MobileSyncClient::remap_identifiers` (lines 377-392): a payload
whose `plist_type` is not `Array` is rejected with `InvalidArg` before
the native call; otherwise `mobilesync_remap_identifiers` runs and its
status is propagated. The second component counts how many native
`mobilesync_remap_identifiers` calls were made. -/
def MobileSyncClient.remap_identifiers (_client : MobileSyncClient)
    (mapping : Plist) (nativeResult : MobileSyncError) :
    Except MobileSyncError Unit × Nat :=
  if mapping.plist_type ≠ PlistType.Array then
    (Except.error MobileSyncError.InvalidArg, 0)
  else if nativeResult ≠ MobileSyncError.Success then (Except.error nativeResult, 1)
  else (Except.ok (), 1)

/-- `MobileSyncClient::receive` (lines 95-105): the native
`mobilesync_receive` call writes a plist; a non-Success status is
propagated, otherwise the received plist is returned. -/
def MobileSyncClient.receive (_client : MobileSyncClient)
    (nativeResult : MobileSyncError) (plist : Plist) : Except MobileSyncError Plist :=
  if nativeResult ≠ MobileSyncError.Success then Except.error nativeResult
  else Except.ok plist

/-- `MobileSyncClient::send` (lines 114-123): the native
`mobilesync_send` call on the message's pointer; its translated status
is propagated. -/
def MobileSyncClient.send (_client : MobileSyncClient) (_message : Plist)
    (nativeResult : MobileSyncError) : Except MobileSyncError Unit :=
  if nativeResult ≠ MobileSyncError.Success then Except.error nativeResult
  else Except.ok ()

/-- `MobileSyncClient::finish` (lines 205-213): the native
`mobilesync_finish` status is propagated. -/
def MobileSyncClient.finish (_client : MobileSyncClient)
    (nativeResult : MobileSyncError) : Except MobileSyncError Unit :=
  if nativeResult ≠ MobileSyncError.Success then Except.error nativeResult
  else Except.ok ()

/-- `MobileSyncClient::clear_all_records_on_device` (lines 258-267):
the native `mobilesync_clear_all_records_on_device` status is
propagated. -/
def MobileSyncClient.clear_all_records_on_device (_client : MobileSyncClient)
    (nativeResult : MobileSyncError) : Except MobileSyncError Unit :=
  if nativeResult ≠ MobileSyncError.Success then Except.error nativeResult
  else Except.ok ()

/-- `MobileSyncClient::acknowledge_changes_from_device` (lines
304-314): the native `mobilesync_acknowledge_changes_from_device`
status is propagated. -/
def MobileSyncClient.acknowledge_changes_from_device (_client : MobileSyncClient)
    (nativeResult : MobileSyncError) : Except MobileSyncError Unit :=
  if nativeResult ≠ MobileSyncError.Success then Except.error nativeResult
  else Except.ok ()

/-- `MobileSyncClient::ready_to_send_changes_from_computer` (lines
323-334): the native `mobilesync_ready_to_send_changes_from_computer`
status is propagated. -/
def MobileSyncClient.ready_to_send_changes_from_computer (_client : MobileSyncClient)
    (nativeResult : MobileSyncError) : Except MobileSyncError Unit :=
  if nativeResult ≠ MobileSyncError.Success then Except.error nativeResult
  else Except.ok ()

/-- `MobileSyncClient::send_changes` (lines 343-368): the actions
pointer is null for `None` (the `map_or`), the is-last flag converts
via `is_last.into()`, and the native `mobilesync_send_changes` status
is propagated. -/
def MobileSyncClient.send_changes (_client : MobileSyncClient) (_entities : Plist)
    (_is_last : Bool) (_actions : Option Plist)
    (nativeResult : MobileSyncError) : Except MobileSyncError Unit :=
  if nativeResult ≠ MobileSyncError.Success then Except.error nativeResult
  else Except.ok ()

/- ============== Handle lifecycle trace model ============== -/

/-- One event in the lifecycle of `MobileSyncClient` values, as Rust
executes them:
- `newOk p` — `new`/`start_service` where the native constructor
  succeeds writing pointer `p`, so an owning value is created
  (lines 48-51 / 81-84);
- `newErr` — a construction attempt where the native constructor
  fails: the source returns `Err(result)` before any `MobileSyncClient`
  exists (lines 44-46 / 77-79), so no value is created and `Drop` will
  never run for it;
- `clone i` — `Clone::clone` on live value number `i`: the derived
  impl (line 15, `derive(Clone)`) copies the raw `pointer` field into
  a second owning value;
- `drop i` — value number `i` goes out of scope: the `Drop` impl
  (lines 440-446) calls `mobilesync_client_free(self.pointer)`. -/
inductive ClientOp where
  | newOk (p : Nat)
  | newErr
  | clone (i : Nat)
  | drop (i : Nat)
deriving DecidableEq, Repr

/-- State of the lifecycle trace: slot `i` of `live` holds the pointer
of value number `i` while it is live (`none` once dropped or for a slot
never filled), and `freeCalls` logs, in order, every pointer passed to
`mobilesync_client_free`. -/
structure ClientTraceState where
  live : List (Option Nat)
  freeCalls : List Nat
deriving DecidableEq, Repr

/-- The empty initial state: no values, no teardown calls. -/
def initClientState : ClientTraceState :=
  { live := [], freeCalls := [] }

/-- One step of the lifecycle trace. -/
def clientStep (s : ClientTraceState) : ClientOp → ClientTraceState
  | ClientOp.newOk p => { s with live := s.live ++ [some p] }
  | ClientOp.newErr => s
  | ClientOp.clone i =>
    match s.live.getD i none with
    | some p => { s with live := s.live ++ [some p] }
    | none => s
  | ClientOp.drop i =>
    match s.live.getD i none with
    | some p =>
      { live := s.live.set i none, freeCalls := s.freeCalls ++ [p] }
    | none => s

/-- Run a list of lifecycle events from the initial state. -/
def runClientOps (ops : List ClientOp) : ClientTraceState :=
  ops.foldl clientStep initClientState

/- ===================== Claims ===================== -/

/-- C1: the claim states that for every successfully constructed
`MobileSyncClient` handle, `mobilesync_client_free` is called exactly
once over the handle's lifetime — never more than once. Because the
struct derives `Clone` while `Drop` frees the raw pointer, this fails:
in the trace that constructs one client with native pointer 7, clones
it, and drops both values, the teardown is called twice on pointer 7,
although only one handle was successfully constructed. -/
theorem c1_clone_drop_double_free :
    (runClientOps [ClientOp.newOk 7, ClientOp.clone 0, ClientOp.drop 0,
      ClientOp.drop 1]).freeCalls = [7, 7] ∧
    (runClientOps [ClientOp.newOk 7, ClientOp.clone 0, ClientOp.drop 0,
      ClientOp.drop 1]).freeCalls.count 7 = 2 := by
  decide

/-- C2: for a registration with a udid filter, the callback bridge
forwards the decoded event to the user handler iff the event's device
identifier equals the filter; for a registration without a filter,
every (valid) event is forwarded. -/
theorem c2_filter_forwarding_iff (raw : RawIDeviceEvent) (cb : IDeviceEventCallback) :
    idevice_event_callback (some raw) cb = CallbackOutcome.forwarded (decodeEvent raw) ↔
      (cb.udid_filter = none ∨ cb.udid_filter = some (decodeEvent raw).udid) := by
  cases cb with
  | mk filt =>
    cases filt with
    | none => simp [idevice_event_callback]
    | some f =>
      by_cases h : (decodeEvent raw).udid = f
      · simp [idevice_event_callback, h]
      · simp [idevice_event_callback, h, Ne.symm h]

/-- C3 counterexample: the claim states that every wrapper operation
calling into the native layer returns the translated typed error to
the caller rather than panicking, for any input. It fails at two
concrete inputs. First, `start_service` at the label "a\x00b" (a
string with an interior NUL byte) panics in
`CString::new(label).unwrap()` and returns no error. Second, `start`
at data-class "com.test" with a failing native call that leaves the
error description null performs the undefined-behavior dereference
`CStr::from_ptr(null)` and returns no error either. -/
theorem c3_nul_string_panics_and_null_description_ub :
    MobileSyncClient.start_service "a\x00b" MobileSyncError.UnknownError 3 =
      RustOutcome.panicked ∧
    MobileSyncClient.start_service "a\x00b" MobileSyncError.UnknownError 3 ≠
      RustOutcome.ok (Except.error MobileSyncError.UnknownError) ∧
    MobileSyncClient.start { pointer := 1 } "com.test" [] 1 MobileSyncType.Reset
      MobileSyncError.UnknownError none = RustOutcome.ub ∧
    MobileSyncClient.start { pointer := 1 } "com.test" [] 1 MobileSyncType.Reset
        MobileSyncError.UnknownError none ≠
      RustOutcome.ok (startCall { pointer := 1 } "com.test" [] 1 MobileSyncType.Reset,
        Except.error ("", MobileSyncError.UnknownError)) := by
  refine ⟨rfl, fun h => ?_, rfl, fun h => ?_⟩
  · exact RustOutcome.noConfusion h
  · exact RustOutcome.noConfusion h

/-- C3 amended: every wrapper operation that calls into the native
layer returns the translated typed error to the caller rather than
panicking, except in the two unguarded cases exhibited by the
counterexample: a string argument with an interior NUL byte panics in
the CString conversion, and a `start` whose native failure leaves the
error description null dereferences that null pointer. Stated as: for
every input whose string arguments have no interior NUL byte, with the
description supplied on a `start` failure, each of the fifteen wrapper
operations propagates the translated typed error of its failing native
call. -/
theorem c3_all_ops_propagate_translated_error (client : MobileSyncClient)
    (label reason data_class : String)
    (e : MobileSyncError) (p : Nat) (anchors : List MobileSyncAnchor) (v : Nat)
    (t : MobileSyncType) (d : String) (msg pl anc entities mArr : Plist)
    (hflag : Int) (is_last : Bool) (actions : Option Plist)
    (hl : hasInteriorNul label = false) (hr : hasInteriorNul reason = false)
    (hd : hasInteriorNul data_class = false) (he : e ≠ MobileSyncError.Success)
    (hm : mArr.plist_type = PlistType.Array) :
    MobileSyncClient.new e p = Except.error e ∧
    MobileSyncClient.start_service label e p = RustOutcome.ok (Except.error e) ∧
    client.receive e msg = Except.error e ∧
    client.send msg e = Except.error e ∧
    client.start data_class anchors v t e (some d) =
      RustOutcome.ok (startCall client data_class anchors v t, Except.error (d, e)) ∧
    client.cancel reason e = RustOutcome.ok (Except.error e) ∧
    client.finish e = Except.error e ∧
    client.get_all_records_from_device e e pl hflag anc = Except.error e ∧
    client.get_changes_from_device e e pl hflag anc = Except.error e ∧
    client.clear_all_records_on_device e = Except.error e ∧
    client.receive_changes e pl hflag anc = Except.error e ∧
    client.acknowledge_changes_from_device e = Except.error e ∧
    client.ready_to_send_changes_from_computer e = Except.error e ∧
    client.send_changes entities is_last actions e = Except.error e ∧
    (client.remap_identifiers mArr e).1 = Except.error e := by
  refine ⟨?_, ?_, ?_, ?_, ?_, ?_, ?_, ?_, ?_, ?_, ?_, ?_, ?_, ?_, ?_⟩ <;>
    simp [MobileSyncClient.new, MobileSyncClient.start_service, MobileSyncClient.receive,
      MobileSyncClient.send, MobileSyncClient.start, MobileSyncClient.cancel,
      MobileSyncClient.finish, MobileSyncClient.get_all_records_from_device,
      MobileSyncClient.get_changes_from_device, MobileSyncClient.clear_all_records_on_device,
      MobileSyncClient.receive_changes, MobileSyncClient.acknowledge_changes_from_device,
      MobileSyncClient.ready_to_send_changes_from_computer, MobileSyncClient.send_changes,
      MobileSyncClient.remap_identifiers, cStringNew, hl, hr, hd, he, hm]

/-- C3 witness: the amended theorem applied at concrete inputs, with
every hypothesis discharged there. -/
theorem c3_all_ops_propagate_translated_error_witness :
    hasInteriorNul "lbl" = false ∧ hasInteriorNul "stop" = false ∧
    hasInteriorNul "com.test" = false ∧
    MobileSyncError.MuxError ≠ MobileSyncError.Success ∧
    Plist.plist_type { plist_type := PlistType.Array, pointer := 5 } = PlistType.Array ∧
    (MobileSyncClient.new MobileSyncError.MuxError 4 =
        Except.error MobileSyncError.MuxError ∧
      MobileSyncClient.start_service "lbl" MobileSyncError.MuxError 4 =
        RustOutcome.ok (Except.error MobileSyncError.MuxError) ∧
      MobileSyncClient.receive { pointer := 1 } MobileSyncError.MuxError
          { plist_type := PlistType.Dictionary, pointer := 2 } =
        Except.error MobileSyncError.MuxError ∧
      MobileSyncClient.send { pointer := 1 }
          { plist_type := PlistType.Dictionary, pointer := 2 } MobileSyncError.MuxError =
        Except.error MobileSyncError.MuxError ∧
      MobileSyncClient.start { pointer := 1 } "com.test" [] 1 MobileSyncType.Reset
          MobileSyncError.MuxError (some "oops") =
        RustOutcome.ok (startCall { pointer := 1 } "com.test" [] 1 MobileSyncType.Reset,
          Except.error ("oops", MobileSyncError.MuxError)) ∧
      MobileSyncClient.cancel { pointer := 1 } "stop" MobileSyncError.MuxError =
        RustOutcome.ok (Except.error MobileSyncError.MuxError) ∧
      MobileSyncClient.finish { pointer := 1 } MobileSyncError.MuxError =
        Except.error MobileSyncError.MuxError ∧
      MobileSyncClient.get_all_records_from_device { pointer := 1 } MobileSyncError.MuxError
          MobileSyncError.MuxError { plist_type := PlistType.Dictionary, pointer := 2 } 0
          { plist_type := PlistType.String, pointer := 3 } =
        Except.error MobileSyncError.MuxError ∧
      MobileSyncClient.get_changes_from_device { pointer := 1 } MobileSyncError.MuxError
          MobileSyncError.MuxError { plist_type := PlistType.Dictionary, pointer := 2 } 0
          { plist_type := PlistType.String, pointer := 3 } =
        Except.error MobileSyncError.MuxError ∧
      MobileSyncClient.clear_all_records_on_device { pointer := 1 } MobileSyncError.MuxError =
        Except.error MobileSyncError.MuxError ∧
      MobileSyncClient.receive_changes { pointer := 1 } MobileSyncError.MuxError
          { plist_type := PlistType.Dictionary, pointer := 2 } 0
          { plist_type := PlistType.String, pointer := 3 } =
        Except.error MobileSyncError.MuxError ∧
      MobileSyncClient.acknowledge_changes_from_device { pointer := 1 }
          MobileSyncError.MuxError =
        Except.error MobileSyncError.MuxError ∧
      MobileSyncClient.ready_to_send_changes_from_computer { pointer := 1 }
          MobileSyncError.MuxError =
        Except.error MobileSyncError.MuxError ∧
      MobileSyncClient.send_changes { pointer := 1 }
          { plist_type := PlistType.Array, pointer := 5 } true none
          MobileSyncError.MuxError =
        Except.error MobileSyncError.MuxError ∧
      (MobileSyncClient.remap_identifiers { pointer := 1 }
          { plist_type := PlistType.Array, pointer := 5 } MobileSyncError.MuxError).1 =
        Except.error MobileSyncError.MuxError) :=
  ⟨by decide, by decide, by decide, by decide, by decide,
    c3_all_ops_propagate_translated_error { pointer := 1 } "lbl" "stop" "com.test"
      MobileSyncError.MuxError 4 [] 1 MobileSyncType.Reset "oops"
      { plist_type := PlistType.Dictionary, pointer := 2 }
      { plist_type := PlistType.Dictionary, pointer := 2 }
      { plist_type := PlistType.String, pointer := 3 }
      { plist_type := PlistType.Array, pointer := 5 }
      { plist_type := PlistType.Array, pointer := 5 }
      0 true none
      (by decide) (by decide) (by decide) (by decide) (by decide)⟩

/-- C4: the claim states that the native entry point validates the
event record before dereferencing and fails fast (drops the event or
aborts) on a null raw event pointer. The source dereferences the
pointer unconditionally, so on a null event pointer the outcome is an
undefined-behavior dereference, not a dropped event or an abort —
regardless of the registration's filter configuration. -/
theorem c4_null_event_is_dereferenced :
    idevice_event_callback none { udid_filter := none } = CallbackOutcome.ub ∧
    idevice_event_callback none { udid_filter := some "0123456789abcdef" } =
      CallbackOutcome.ub ∧
    idevice_event_callback none { udid_filter := none } ≠ CallbackOutcome.droppedByFilter :=
  ⟨rfl, rfl, fun h => CallbackOutcome.noConfusion h⟩

/-- C5: for every payload whose plist type is not Array,
`remap_identifiers` returns the InvalidArgument error and performs
zero native `mobilesync_remap_identifiers` calls. -/
theorem c5_remap_rejects_non_sequence (client : MobileSyncClient) (mapping : Plist)
    (e : MobileSyncError) (h : mapping.plist_type ≠ PlistType.Array) :
    client.remap_identifiers mapping e = (Except.error MobileSyncError.InvalidArg, 0) := by
  simp [MobileSyncClient.remap_identifiers, h]

/-- C5 witness: a dictionary payload is rejected with InvalidArg and
no native call occurs. -/
theorem c5_remap_rejects_non_sequence_witness :
    Plist.plist_type { plist_type := PlistType.Dictionary, pointer := 2 } ≠ PlistType.Array ∧
    MobileSyncClient.remap_identifiers { pointer := 1 }
        { plist_type := PlistType.Dictionary, pointer := 2 } MobileSyncError.Success =
      (Except.error MobileSyncError.InvalidArg, 0) :=
  ⟨by decide,
    c5_remap_rejects_non_sequence { pointer := 1 }
      { plist_type := PlistType.Dictionary, pointer := 2 } MobileSyncError.Success (by decide)⟩

/-- C6: a failed construction issues no teardown call: the `newErr`
trace step leaves the teardown log and the set of live values
unchanged (in particular, a failed construction from the initial state
ends with zero teardown calls), and at the function level `new` and
`start_service` return the translated error with no client value ever
existing for `Drop` to run on. -/
theorem c6_failed_construction_no_teardown (s : ClientTraceState) :
    (clientStep s ClientOp.newErr).freeCalls = s.freeCalls ∧
    (clientStep s ClientOp.newErr).live = s.live ∧
    (runClientOps [ClientOp.newErr]).freeCalls = [] ∧
    MobileSyncClient.new MobileSyncError.MuxError 3 = Except.error MobileSyncError.MuxError ∧
    MobileSyncClient.start_service "lbl2" MobileSyncError.MuxError 3 =
      RustOutcome.ok (Except.error MobileSyncError.MuxError) :=
  ⟨rfl, rfl, rfl, rfl, rfl⟩

/-- C7: when `start` is called and the native call fails while writing
a diagnostic string, the returned error value is the pair of the
diagnostic string sourced from the native layer and the typed error
code. -/
theorem c7_start_failure_carries_string_and_code (client : MobileSyncClient)
    (data_class : String) (anchors : List MobileSyncAnchor) (v : Nat)
    (t : MobileSyncType) (e : MobileSyncError) (d : String)
    (hd : hasInteriorNul data_class = false) (he : e ≠ MobileSyncError.Success) :
    client.start data_class anchors v t e (some d) =
      RustOutcome.ok (startCall client data_class anchors v t, Except.error (d, e)) := by
  simp [MobileSyncClient.start, cStringNew, hd, he]

/-- C7 witness: the spec's scenario — mode Reset, zero anchors,
data-class "com.test", host version 1 — with a failing native call. -/
theorem c7_start_failure_carries_string_and_code_witness :
    hasInteriorNul "com.test" = false ∧
    MobileSyncError.SyncRefused ≠ MobileSyncError.Success ∧
    MobileSyncClient.start { pointer := 9 } "com.test" [] 1 MobileSyncType.Reset
        MobileSyncError.SyncRefused (some "session refused by device") =
      RustOutcome.ok (startCall { pointer := 9 } "com.test" [] 1 MobileSyncType.Reset,
        Except.error ("session refused by device", MobileSyncError.SyncRefused)) :=
  ⟨by decide, by decide,
    c7_start_failure_carries_string_and_code { pointer := 9 } "com.test" [] 1
      MobileSyncType.Reset MobileSyncError.SyncRefused "session refused by device"
      (by decide) (by decide)⟩

/-- C8: on native success, `receive_changes` (and hence
`get_all_records_from_device` and `get_changes_from_device`) returns
the "has more changes" flag normalized by the nonzero test: the
returned boolean is `has_more_changes != 0`, which is true exactly
when the native integer is nonzero (so 0 maps to false and every
nonzero value maps to true). -/
theorem c8_has_more_changes_nonzero_test (client : MobileSyncClient)
    (p a : Plist) (h : Int) :
    client.receive_changes MobileSyncError.Success p h a = Except.ok (p, h != 0, a) ∧
    ((h != 0) = true ↔ h ≠ 0) ∧
    client.get_all_records_from_device MobileSyncError.Success MobileSyncError.Success
        p h a = Except.ok (p, h != 0, a) ∧
    client.get_changes_from_device MobileSyncError.Success MobileSyncError.Success
        p h a = Except.ok (p, h != 0, a) := by
  refine ⟨rfl, ?_, rfl, rfl⟩
  exact bne_iff_ne

/-- C9: reading back `device_anchor()` and `computer_anchor()` from a
successfully constructed `MobileSyncAnchor` yields exactly the strings
it was constructed from. -/
theorem c9_anchor_roundtrip (device_anchor computer_anchor : String) (a : MobileSyncAnchor)
    (h : MobileSyncAnchor.new device_anchor computer_anchor = RustOutcome.ok a) :
    a.device_anchor = device_anchor ∧ a.computer_anchor = computer_anchor := by
  cases h1 : hasInteriorNul device_anchor with
  | true => simp [MobileSyncAnchor.new, cStringNew, h1] at h
  | false =>
    cases h2 : hasInteriorNul computer_anchor with
    | true => simp [MobileSyncAnchor.new, cStringNew, h1, h2] at h
    | false =>
      rw [show MobileSyncAnchor.new device_anchor computer_anchor =
          RustOutcome.ok ⟨device_anchor, computer_anchor⟩ by
        simp [MobileSyncAnchor.new, cStringNew, h1, h2]] at h
      cases h
      exact ⟨rfl, rfl⟩

/-- C9 witness: the round-trip at a concrete pair of strings. -/
theorem c9_anchor_roundtrip_witness :
    MobileSyncAnchor.new "dev-anchor" "host-anchor" =
      RustOutcome.ok (MobileSyncAnchor.mk "dev-anchor" "host-anchor") ∧
    MobileSyncAnchor.device_anchor (MobileSyncAnchor.mk "dev-anchor" "host-anchor") =
      "dev-anchor" ∧
    MobileSyncAnchor.computer_anchor (MobileSyncAnchor.mk "dev-anchor" "host-anchor") =
      "host-anchor" :=
  ⟨by decide,
    (c9_anchor_roundtrip "dev-anchor" "host-anchor"
      (MobileSyncAnchor.mk "dev-anchor" "host-anchor") (by decide)).1,
    (c9_anchor_roundtrip "dev-anchor" "host-anchor"
      (MobileSyncAnchor.mk "dev-anchor" "host-anchor") (by decide)).2⟩

/-- C10: the anchors argument handed to the native `mobilesync_start`
call is element 0 of the built pointer vector: the first anchor of the
list, or null for an empty list; anchors after the first do not affect
the call — `start` on `a :: rest` equals `start` on `[a]`. -/
theorem c10_start_passes_only_first_anchor (client : MobileSyncClient)
    (data_class : String) (a : MobileSyncAnchor) (rest : List MobileSyncAnchor)
    (anchors : List MobileSyncAnchor) (v : Nat) (t : MobileSyncType)
    (e : MobileSyncError) (d : Option String) :
    startAnchorArg anchors = anchors.head? ∧
    startAnchorArg [] = none ∧
    client.start data_class (a :: rest) v t e d = client.start data_class [a] v t e d := by
  refine ⟨?_, rfl, ?_⟩
  · cases anchors <;> rfl
  · rfl

end RustyLibimobiledevice
